import Mathlib

/-!
# terraform-provider-jp: provider configuration and resource schema

A shallow embedding of

* `internal/client/client_config.go` (`ProviderConfig`, `APIClient`, `ProviderConfig.Client`),
* `internal/provider/provider.go` (`jamfproProviderModel`, `Schema`, `Configure`),
* `internal/resources/computerextensionattributes/computerextensionattributes_resource.go`
  (`Schema`, `Create`, `Read`).

Go pointers that may be nil are `Option`s, a Go `error` is an `Option String`
holding the text of `Error()`, the `*ConfigureResponse` that `Configure` mutates
is passed in and returned, and the calls a function makes to its collaborators
(`os.Getenv`, `BuildClient`) are recorded in an `Effects` value returned next to
the result.  Calls to `tflog` only write to the log and are left out.
-/

namespace JamfPro

/-! ## Framework values: `types.String` and `diag.Diagnostics` -/

/-- A `types.String` of the plugin framework: null, unknown, or a known value. -/
inductive TypesString where
  | null
  | unknown
  | value (s : String)
  deriving DecidableEq, Repr

/-- `types.String.IsNull`. -/
def TypesString.IsNull : TypesString → Bool
  | .null => true
  | _ => false

/-- `types.String.IsUnknown`. -/
def TypesString.IsUnknown : TypesString → Bool
  | .unknown => true
  | _ => false

/-- `types.String.ValueString`: the known value, the empty string for null and unknown. -/
def TypesString.ValueString : TypesString → String
  | .value s => s
  | _ => ""

/-- Severity of a diagnostic. -/
inductive Severity where
  | Error
  | Warning
  deriving DecidableEq, Repr

/-- One diagnostic: severity, summary (title), detail, and the root attribute of its
path when it is an attribute diagnostic. -/
structure Diagnostic where
  severity : Severity
  summary : String
  detail : String
  path : Option String
  deriving DecidableEq, Repr

/-- The list type `diag.Diagnostics`. -/
abbrev Diagnostics := List Diagnostic

/-- `diag.NewErrorDiagnostic`. -/
def NewErrorDiagnostic (summary detail : String) : Diagnostic :=
  { severity := Severity.Error, summary := summary, detail := detail, path := none }

/-- `diag.NewAttributeErrorDiagnostic` with the path `path.Root(root)`. -/
def NewAttributeErrorDiagnostic (root summary detail : String) : Diagnostic :=
  { severity := Severity.Error, summary := summary, detail := detail, path := some root }

/-- `Diagnostics.HasError`: some diagnostic has severity error. -/
def Diagnostics.HasError (diags : Diagnostics) : Bool :=
  diags.any (fun d => decide (d.severity = Severity.Error))

/-- `Diagnostics.Append`: adds every diagnostic that is not already contained. -/
def Diagnostics.Append (diags : Diagnostics) : List Diagnostic → Diagnostics
  | [] => diags
  | d :: rest =>
    if d ∈ diags then Diagnostics.Append diags rest
    else Diagnostics.Append (diags ++ [d]) rest

/-- `Diagnostics.AddError`. -/
def Diagnostics.AddError (diags : Diagnostics) (summary detail : String) : Diagnostics :=
  Diagnostics.Append diags [NewErrorDiagnostic summary detail]

/-- `Diagnostics.AddAttributeError`. -/
def Diagnostics.AddAttributeError (diags : Diagnostics) (root summary detail : String) :
    Diagnostics :=
  Diagnostics.Append diags [NewAttributeErrorDiagnostic root summary detail]

/-- The error diagnostics of a list. -/
def Diagnostics.Errors (diags : Diagnostics) : List Diagnostic :=
  diags.filter (fun d => decide (d.severity = Severity.Error))

/-! ## `internal/client/client_config.go` -/

/-- The fields of `jamfpro.Config` that `ProviderConfig.Client` fills in. -/
structure jamfpro.Config where
  InstanceName : String
  ClientID : String
  ClientSecret : String
  DebugMode : Bool
  deriving DecidableEq, Repr

/-- A `jamfpro.Client` of the SDK, an opaque connection handle. -/
structure jamfpro.Client where
  handle : Nat
  deriving DecidableEq, Repr

/-- `ProviderConfig`. -/
structure ProviderConfig where
  InstanceName : String
  ClientID : String
  ClientSecret : String
  DebugMode : Bool
  UserAgent : String
  deriving DecidableEq, Repr

/-- `APIClient`: `Conn` is a `*jamfpro.Client`. -/
structure APIClient where
  Conn : Option jamfpro.Client
  deriving DecidableEq, Repr

/-- The type of the replaceable factory `BuildClient`: from a `jamfpro.Config` to the
pair `(*jamfpro.Client, error)`. -/
abbrev BuildClientFn := jamfpro.Config → Option jamfpro.Client × Option String

/-- What `fmt.Sprintf` produces for the error detail of `ProviderConfig.Client`;
`%v` of a bool prints `true` or `false`. -/
def errorDetail (instanceName clientID : String) (debugMode : Bool) (err : String) : String :=
  "Failed to create Jamf Pro client with Instance Name '" ++ instanceName ++
    "', Client ID '" ++ clientID ++ "', and Debug Mode '" ++
    (if debugMode then "true" else "false") ++ "'. Error: " ++ err

/-- Result of `ProviderConfig.Client`: the `*APIClient`, the diagnostics, and the
configs `BuildClient` was invoked with, in order. -/
structure ClientResult where
  client : Option APIClient
  diags : Diagnostics
  buildClient : List jamfpro.Config
  deriving DecidableEq, Repr

/-- `ProviderConfig.Client`. -/
def ProviderConfig.Client (BuildClient : BuildClientFn) (c : ProviderConfig) : ClientResult :=
  let diags : Diagnostics := []
  let jamfProConfig : jamfpro.Config :=
    { InstanceName := c.InstanceName
      ClientID := c.ClientID
      ClientSecret := c.ClientSecret
      DebugMode := c.DebugMode }
  let (jamfProClient, err) := BuildClient jamfProConfig
  match err with
  | some e =>
    let detail := errorDetail c.InstanceName c.ClientID c.DebugMode e
    { client := none
      diags := Diagnostics.AddError diags "Client Creation Failed" detail
      buildClient := [jamfProConfig] }
  | none =>
    { client := some { Conn := jamfProClient }
      diags := diags
      buildClient := [jamfProConfig] }

/-! ## `internal/provider/provider.go` -/

/-- `jamfproProviderModel`: the four `types.String` fields. -/
structure jamfproProviderModel where
  InstanceName : TypesString
  ClientID : TypesString
  ClientSecret : TypesString
  Debug : TypesString
  deriving DecidableEq, Repr

/-- The `tfsdk` tags of the fields of `jamfproProviderModel`, in declaration order. -/
def jamfproProviderModel.tfsdkTags : List String :=
  ["instance_name", "client_id", "client_secret", "debug"]

/-- A `schema.StringAttribute` of the provider schema (the flags the source sets). -/
structure ProviderStringAttribute where
  Description : String
  Optional : Bool
  Sensitive : Bool
  deriving DecidableEq, Repr

/-- The `Attributes` map of `jamfproProvider.Schema`, in source order. -/
def jamfproProvider.Schema : List (String × ProviderStringAttribute) :=
  [ ("instance_name",
      { Description := "The Jamf Pro instance name. For mycompany.jamfcloud.com, define mycompany in this field."
        Optional := true, Sensitive := false }),
    ("client_id",
      { Description := "The Jamf Pro Client ID for authentication."
        Optional := true, Sensitive := false }),
    ("client_secret",
      { Description := "The Jamf Pro Client secret for authentication."
        Optional := true, Sensitive := true }),
    ("debug_mode",
      { Description := "Enable or disable debug mode for verbose logging."
        Optional := true, Sensitive := false }) ]

/-- The attribute names the provider schema declares. -/
def jamfproProvider.SchemaAttributeNames : List String :=
  jamfproProvider.Schema.map Prod.fst

/-- What `req.Config.Get(ctx, &config)` does: the model it writes into `config` and
the diagnostics it returns. -/
structure TfsdkConfig where
  model : jamfproProviderModel
  diags : Diagnostics
  deriving DecidableEq, Repr

/-- `provider.ConfigureRequest`. -/
structure ConfigureRequest where
  Config : TfsdkConfig
  deriving DecidableEq, Repr

/-- `provider.ConfigureResponse`.  `DataSourceData` and `ResourceData` have the Go type
`any`: `none` is the unset (nil) interface, `some p` holds the `*APIClient` `p`, which
itself may be a nil pointer. -/
structure ConfigureResponse where
  Diagnostics : Diagnostics
  DataSourceData : Option (Option APIClient)
  ResourceData : Option (Option APIClient)
  deriving DecidableEq, Repr

/-- The process environment as seen through `os.Getenv`: the value of a variable, the
empty string when it is not set. -/
abbrev Env := String → String

/-- The calls `Configure` made: the names given to `os.Getenv` and the configs given to
`BuildClient`, in order. -/
structure Effects where
  getenv : List String
  buildClient : List jamfpro.Config
  deriving DecidableEq, Repr

/-- `strconv.ParseBool` of the Go standard library: the pair `(value, error)`.  The six
spellings of each value are the cases of its `switch`; `Configure` only tests the error
against nil. -/
def strconv.ParseBool (str : String) : Bool × Option String :=
  if str ∈ ["1", "t", "T", "TRUE", "true", "True"] then (true, none)
  else if str ∈ ["0", "f", "F", "FALSE", "false", "False"] then (false, none)
  else (false, some ("strconv.ParseBool: parsing " ++ str.quote ++ ": invalid syntax"))

/-- Lines 97-131 of `Configure`: one attribute error per unknown field. -/
def unknownChecks (config : jamfproProviderModel) (diags : Diagnostics) : Diagnostics :=
  let diags :=
    if config.InstanceName.IsUnknown then
      Diagnostics.AddAttributeError diags "instance_name"
        "Unknown jamfpro instance name"
        ("The provider cannot create the jamfpro API client as there is an unknown configuration value for the jamfpro instance name. " ++
          "Either target apply the source of the value first, set the value statically in the configuration, or use the instance_name environment variable.")
    else diags
  let diags :=
    if config.ClientID.IsUnknown then
      Diagnostics.AddAttributeError diags "client_id"
        "Unknown jamfpro Client ID"
        ("The provider cannot create the jamfpro API client as there is an unknown configuration value for the jamfpro Client ID. " ++
          "Either target apply the source of the value first, set the value statically in the configuration, or use the client_id environment variable.")
    else diags
  let diags :=
    if config.ClientSecret.IsUnknown then
      Diagnostics.AddAttributeError diags "client_secret"
        "Unknown jamfpro client secret"
        ("The provider cannot create the jamfpro API client as there is an unknown configuration value for the jamfpro client secret. " ++
          "Either target apply the source of the value first, set the value statically in the configuration, or use the client_secret environment variable.")
    else diags
  let diags :=
    if config.Debug.IsUnknown then
      Diagnostics.AddAttributeError diags "debug_mode"
        "Unknown jamfpro debug mode setting"
        ("The provider cannot create the jamfpro API client as there is an unknown configuration value for the jamfpro debug mode. " ++
          "Either target apply the source of the value first, set the value statically in the configuration, or use the debug_mode environment variable.")
    else diags
  diags

/-- The four local variables of `Configure` after lines 141-160. -/
structure Resolved where
  instanceName : String
  clientID : String
  clientSecret : String
  debugMode : String
  deriving DecidableEq, Repr

/-- Lines 141-160 of `Configure`: default to the environment variables, override with
the configuration value if it is not null. -/
def resolve (env : Env) (config : jamfproProviderModel) : Resolved :=
  let instanceName := env "instance_name"
  let clientID := env "client_id"
  let clientSecret := env "client_secret"
  let debugMode := env "debug_mode"
  let instanceName :=
    if !config.InstanceName.IsNull then config.InstanceName.ValueString else instanceName
  let clientID :=
    if !config.ClientID.IsNull then config.ClientID.ValueString else clientID
  let clientSecret :=
    if !config.ClientSecret.IsNull then config.ClientSecret.ValueString else clientSecret
  let debugMode :=
    if !config.Debug.IsNull then config.Debug.ValueString else debugMode
  { instanceName := instanceName, clientID := clientID
    clientSecret := clientSecret, debugMode := debugMode }

/-- The names `Configure` passes to `os.Getenv` at lines 141-144. -/
def resolveGetenv : List String :=
  ["instance_name", "client_id", "client_secret", "debug_mode"]

/-- Lines 162-220 of `Configure`, from the resolved values on: the response it leaves
and the configs `BuildClient` was invoked with. -/
def configureResolved (BuildClient : BuildClientFn) (r : Resolved) (resp : ConfigureResponse) :
    ConfigureResponse × List jamfpro.Config :=
  -- If any of the expected configurations are missing, return errors with
  -- provider-specific guidance.
  if r.instanceName = "" ∨ r.clientID = "" ∨ r.clientSecret = "" then
    ({ resp with
        Diagnostics := Diagnostics.AddError resp.Diagnostics "Missing Configuration"
          ("The provider cannot create the jamfpro API client as there is a missing or empty value for the configuration. " ++
            "Ensure all required values (instance_name, client_id, client_secret) are set.") },
      [])
  else
  -- Convert debugMode string to bool
  let (debug, err) := strconv.ParseBool r.debugMode
  if err.isSome then
    ({ resp with
        Diagnostics := Diagnostics.AddError resp.Diagnostics "Invalid Debug Mode Value"
          "Debug mode value must be 'true' or 'false'." },
      [])
  else
  if resp.Diagnostics.HasError then (resp, [])
  else
  -- Use the client package to create a new Jamf Pro client
  let providerConfig : ProviderConfig :=
    { InstanceName := r.instanceName
      ClientID := r.clientID
      ClientSecret := r.clientSecret
      DebugMode := debug
      UserAgent := "" }
  -- `jamfProClient, diags := providerConfig.Client()`: the diagnostics go to the local
  -- variable `diags`, which is not read again
  let res := ProviderConfig.Client BuildClient providerConfig
  let jamfProClient := res.client
  -- `if err != nil`: `err` is still the error of `strconv.ParseBool`
  match err with
  | some e =>
    ({ resp with
        Diagnostics := Diagnostics.AddError resp.Diagnostics "Unable to Create jamfpro API Client"
          ("An unexpected error occurred when creating the jamfpro API client. " ++
            "If the error is not clear, please contact the provider developers.\n\n" ++
            "jamfpro Client Error: " ++ e) },
      res.buildClient)
  | none =>
    -- Make the jamfpro client available during DataSource and Resource type Configure methods.
    ({ resp with DataSourceData := some jamfProClient, ResourceData := some jamfProClient },
      res.buildClient)

/-- `jamfproProvider.Configure`: the response it leaves and the calls it made. -/
def Configure (env : Env) (BuildClient : BuildClientFn) (req : ConfigureRequest)
    (resp : ConfigureResponse) : ConfigureResponse × Effects :=
  -- Retrieve provider data from configuration
  let config := req.Config.model
  let diags := req.Config.diags
  let resp := { resp with Diagnostics := Diagnostics.Append resp.Diagnostics diags }
  if resp.Diagnostics.HasError then (resp, { getenv := [], buildClient := [] })
  else
  -- If practitioner provided a configuration value for any of the attributes, it must
  -- be a known value.
  let resp := { resp with Diagnostics := unknownChecks config resp.Diagnostics }
  if resp.Diagnostics.HasError then (resp, { getenv := [], buildClient := [] })
  else
  -- Default values to environment variables, but override with Terraform configuration
  -- value if set.
  let r := resolve env config
  let out := configureResolved BuildClient r resp
  (out.1, { getenv := resolveGetenv, buildClient := out.2 })

/-! ## Concrete inputs -/

/-- An environment with no variable set. -/
def emptyEnv : Env := fun _ => ""

/-- A fresh response, as the framework hands it to `Configure`. -/
def freshResponse : ConfigureResponse :=
  { Diagnostics := [], DataSourceData := none, ResourceData := none }

/-- A request whose configuration bound without diagnostics to the given four values. -/
def requestOf (instanceName clientID clientSecret debug : TypesString) : ConfigureRequest :=
  { Config :=
      { model :=
          { InstanceName := instanceName, ClientID := clientID
            ClientSecret := clientSecret, Debug := debug }
        diags := [] } }

/-- A factory that always fails with the error text `boom`. -/
def failingFactory : BuildClientFn := fun _ => (none, some "boom")

/-- A factory that always succeeds with the connection of handle 7. -/
def workingFactory : BuildClientFn := fun _ => (some { handle := 7 }, none)

/-! ## `computerextensionattributes_resource.go`: the schema -/

/-- The attribute validators the schema uses. -/
inductive Validator where
  | dataTypeValidator
  | stringInSliceValidator (valid : List String)
  deriving DecidableEq, Repr

/-- The plan modifiers the schema uses. -/
inductive PlanModifier where
  | UseStateForUnknown
  deriving DecidableEq, Repr

/-- The fields the source sets on a `schema.StringAttribute` or `schema.BoolAttribute`;
a field it leaves out has Go's zero value. -/
structure AttributeFields where
  Required : Bool := false
  Optional : Bool := false
  Computed : Bool := false
  MarkdownDescription : String := ""
  Validators : List Validator := []
  PlanModifiers : List PlanModifier := []
  deriving DecidableEq, Repr

/-- A `schema.Attribute` of the resource schema. -/
inductive Attribute where
  | StringAttribute (fields : AttributeFields)
  | BoolAttribute (fields : AttributeFields)
  | ListNestedAttributes (attributes : List (String × Attribute))

/-- The kind of value an attribute holds. -/
inductive AttributeKind where
  | String
  | Bool
  | ListNested
  deriving DecidableEq, Repr

/-- The kind of an attribute. -/
def Attribute.kind : Attribute → AttributeKind
  | .StringAttribute _ => AttributeKind.String
  | .BoolAttribute _ => AttributeKind.Bool
  | .ListNestedAttributes _ => AttributeKind.ListNested

/-- The `Required`, `Optional` and `Computed` flags of an attribute; the nested list is
built with empty options and has none of them. -/
def Attribute.flags : Attribute → Bool × Bool × Bool
  | .StringAttribute f => (f.Required, f.Optional, f.Computed)
  | .BoolAttribute f => (f.Required, f.Optional, f.Computed)
  | .ListNestedAttributes _ => (false, false, false)

/-- The validators of an attribute. -/
def Attribute.Validators : Attribute → List Validator
  | .StringAttribute f => f.Validators
  | .BoolAttribute f => f.Validators
  | .ListNestedAttributes _ => []

/-- The nested attributes of an attribute, none for a string or a bool. -/
def Attribute.children : Attribute → List (String × Attribute)
  | .ListNestedAttributes attributes => attributes
  | _ => []

mutual
/-- Whether the attribute, or one nested in it, is both required and computed. -/
def Attribute.requiredAndComputed : Attribute → Bool
  | .StringAttribute f => f.Required && f.Computed
  | .BoolAttribute f => f.Required && f.Computed
  | .ListNestedAttributes attributes => anyRequiredAndComputed attributes
/-- Whether some attribute of the map, at any depth, is both required and computed. -/
def anyRequiredAndComputed : List (String × Attribute) → Bool
  | [] => false
  | (_, a) :: rest => a.requiredAndComputed || anyRequiredAndComputed rest
end

/-- The names of an attribute map. -/
def attributeNames (attributes : List (String × Attribute)) : List String :=
  attributes.map Prod.fst

/-- The attribute of a map under a name. -/
def attributeAt (attributes : List (String × Attribute)) (name : String) : Option Attribute :=
  (attributes.find? (fun p => p.1 == name)).map Prod.snd

/-- The `Attributes` map of `ResourceJamfProComputerExtensionAttributes.Schema`, in source
order. -/
def ResourceJamfProComputerExtensionAttributes.Schema : List (String × Attribute) :=
  [ ("id", .StringAttribute
      { Computed := true
        MarkdownDescription := "The unique identifier of the computer extension attribute."
        PlanModifiers := [PlanModifier.UseStateForUnknown] }),
    ("name", .StringAttribute
      { Required := true
        MarkdownDescription := "The unique name of the Jamf Pro computer extension attribute." }),
    ("enabled", .BoolAttribute
      { Required := true
        MarkdownDescription := "Indicates if the computer extension attribute is enabled." }),
    ("description", .StringAttribute
      { Optional := true
        MarkdownDescription := "Description of the computer extension attribute." }),
    ("data_type", .StringAttribute
      { Optional := true
        MarkdownDescription := "Data type of the computer extension attribute. Can be String / Integer / Date (YYYY-MM-DD hh:mm:ss)"
        Validators := [Validator.dataTypeValidator] }),
    ("input_type", .ListNestedAttributes
      [ ("type", .StringAttribute
          { Required := true
            MarkdownDescription := "Type of input for the computer extension attribute."
            Validators := [Validator.stringInSliceValidator
              ["script", "Text Field", "LDAP Mapping", "Pop-up Menu"]] }),
        ("platform", .StringAttribute
          { Optional := true
            Computed := true
            MarkdownDescription := "Platform type for the computer extension attribute."
            Validators := [Validator.stringInSliceValidator ["Mac", "Windows"]] }),
        ("script", .StringAttribute
          { Optional := true
            Computed := true
            MarkdownDescription := "Script associated with the computer extension attribute." }),
        ("choices", .ListNestedAttributes
          [ ("value", .StringAttribute { Optional := true }) ]) ]),
    ("inventory_display", .StringAttribute
      { Optional := true
        MarkdownDescription := "Display details for inventory for the computer extension attribute."
        Validators := [Validator.stringInSliceValidator
          ["General", "Hardware", "Operating System", "User and Location", "Purchasing",
            "Extension Attributes"]] }),
    ("recon_display", .StringAttribute
      { Optional := true
        Computed := true
        MarkdownDescription := "Display details for recon for the computer extension attribute." }) ]

/-- The top-level attribute of the resource schema under a name. -/
def schemaAttr (name : String) : Option Attribute :=
  attributeAt ResourceJamfProComputerExtensionAttributes.Schema name

/-- The children of `input_type`. -/
def inputTypeAttributes : List (String × Attribute) :=
  ((schemaAttr "input_type").map Attribute.children).getD []

/-- The children of `input_type.choices`. -/
def choicesAttributes : List (String × Attribute) :=
  ((attributeAt inputTypeAttributes "choices").map Attribute.children).getD []

/-- The strings a `stringInSliceValidator` of the attribute allows, none when it has no
such validator. -/
def allowedValues (a : Option Attribute) : Option (List String) :=
  match a.map Attribute.Validators with
  | some [Validator.stringInSliceValidator valid] => some valid
  | _ => none

/-! ## `computerextensionattributes_resource.go`: the CRUD methods -/

/-- A value of the plan or the state under an attribute name. -/
inductive AttrValue where
  | null
  | unknown
  | string (s : String)
  | bool (b : Bool)
  deriving DecidableEq, Repr

/-- The object a `tfsdk.Plan` or `tfsdk.State` holds: the value under each attribute
name; a name without entry is null. -/
abbrev AttrValues := List (String × AttrValue)

/-- The value under an attribute name. -/
def AttrValues.get (values : AttrValues) (name : String) : AttrValue :=
  ((values.find? (fun p => p.1 == name)).map Prod.snd).getD AttrValue.null

/-- `resource.CreateRequest`. -/
structure CreateRequest where
  Plan : AttrValues
  deriving DecidableEq, Repr

/-- `resource.CreateResponse`. -/
structure CreateResponse where
  State : AttrValues
  Diagnostics : Diagnostics
  deriving DecidableEq, Repr

/-- `resource.ReadRequest`. -/
structure ReadRequest where
  State : AttrValues
  deriving DecidableEq, Repr

/-- `resource.ReadResponse`. -/
structure ReadResponse where
  State : AttrValues
  Diagnostics : Diagnostics
  deriving DecidableEq, Repr

/-- `ResourceJamfProComputerExtensionAttributes.Create`: the body is empty, the response
is left as the framework made it. -/
def ResourceJamfProComputerExtensionAttributes.Create (_req : CreateRequest)
    (resp : CreateResponse) : CreateResponse :=
  -- Implement the creation logic here
  resp

/-- `ResourceJamfProComputerExtensionAttributes.Read`: the body is empty. -/
def ResourceJamfProComputerExtensionAttributes.Read (_req : ReadRequest)
    (resp : ReadResponse) : ReadResponse :=
  -- Implement the read logic here
  resp

/-- The plan of the spec's scenario: name, enabled, data type and inventory display set,
the identifier not yet known. -/
def batteryHealthPlan : AttrValues :=
  [ ("id", AttrValue.unknown),
    ("name", AttrValue.string "Battery Health"),
    ("enabled", AttrValue.bool true),
    ("data_type", AttrValue.string "Integer"),
    ("inventory_display", AttrValue.string "Hardware") ]

/-- The response the framework hands to `Create`: a null state and no diagnostics. -/
def freshCreateResponse : CreateResponse :=
  { State := [], Diagnostics := [] }

/-! ## Predicates and values used in the statements -/

/-- The `jamfpro.Config` that `ProviderConfig.Client` builds from its receiver. -/
def ProviderConfig.jamfProConfig (c : ProviderConfig) : jamfpro.Config :=
  { InstanceName := c.InstanceName
    ClientID := c.ClientID
    ClientSecret := c.ClientSecret
    DebugMode := c.DebugMode }

/-- What the framework compares when it binds an object into a struct: the tags of the
struct that are no attribute of the object, and the attributes of the object that are no
tag of the struct.  Binding reports a mismatch unless both lists are empty. -/
def structObjectMismatch (tags names : List String) : List String × List String :=
  (tags.filter (fun t => decide (t ∉ names)), names.filter (fun n => decide (n ∉ tags)))

/-- The configuration bound without an error: `resp.Diagnostics.HasError()` is false at
line 90. -/
def bindOk (req : ConfigureRequest) (resp : ConfigureResponse) : Bool :=
  !(Diagnostics.HasError (Diagnostics.Append resp.Diagnostics req.Config.diags))

/-- None of the four values of the model is unknown. -/
def allKnown (m : jamfproProviderModel) : Bool :=
  !m.InstanceName.IsUnknown && !m.ClientID.IsUnknown && !m.ClientSecret.IsUnknown &&
    !m.Debug.IsUnknown

/-- The error diagnostics of a list that are attached to the path `path.Root(root)`. -/
def attributeErrorsAt (ds : Diagnostics) (root : String) : List Diagnostic :=
  ds.filter (fun d => decide (d.severity = Severity.Error) && decide (d.path = some root))

/-- The spec's reading of the debug flag: the string equals `true` or `false` when the
case of its letters is ignored. -/
def specEqualsIgnoringCase (s t : String) : Bool :=
  decide (s.data.map Char.toLower = t.data.map Char.toLower)

/-- An environment that sets `instance_name` and `client_secret`. -/
def sampleEnv : Env := fun name =>
  if name = "instance_name" then "env-instance"
  else if name = "client_secret" then "env-secret"
  else ""

/-! ## Lemmas on diagnostics -/

theorem HasError_eq_false_iff (ds : Diagnostics) :
    Diagnostics.HasError ds = false ↔ ∀ d ∈ ds, d.severity ≠ Severity.Error := by
  simp [Diagnostics.HasError]

theorem not_mem_of_HasError_eq_false {ds : Diagnostics} {d : Diagnostic}
    (h : Diagnostics.HasError ds = false) (hd : d.severity = Severity.Error) : d ∉ ds := by
  intro hmem
  exact (HasError_eq_false_iff ds).1 h d hmem hd

theorem Append_singleton_of_not_mem {ds : Diagnostics} {d : Diagnostic} (h : d ∉ ds) :
    Diagnostics.Append ds [d] = ds ++ [d] := by
  simp [Diagnostics.Append, h]

theorem AddError_of_HasError_eq_false {ds : Diagnostics} (h : Diagnostics.HasError ds = false)
    (summary detail : String) :
    Diagnostics.AddError ds summary detail = ds ++ [NewErrorDiagnostic summary detail] :=
  Append_singleton_of_not_mem (not_mem_of_HasError_eq_false h rfl)

theorem Errors_eq_nil_of_HasError_eq_false {ds : Diagnostics}
    (h : Diagnostics.HasError ds = false) : Diagnostics.Errors ds = [] := by
  rw [HasError_eq_false_iff] at h
  simp only [Diagnostics.Errors, List.filter_eq_nil_iff, decide_eq_true_eq]
  exact h

theorem HasError_append_error (ds : Diagnostics) (d : Diagnostic)
    (hd : d.severity = Severity.Error) : Diagnostics.HasError (ds ++ [d]) = true := by
  simp [Diagnostics.HasError, hd]

/-! ## `ProviderConfig.Client` -/

theorem Client_of_error (BuildClient : BuildClientFn) (c : ProviderConfig) (e : String)
    (h : (BuildClient c.jamfProConfig).2 = some e) :
    ProviderConfig.Client BuildClient c =
      { client := none
        diags := [NewErrorDiagnostic "Client Creation Failed"
          (errorDetail c.InstanceName c.ClientID c.DebugMode e)]
        buildClient := [c.jamfProConfig] } := by
  unfold ProviderConfig.jamfProConfig at h
  simp only [ProviderConfig.Client, ProviderConfig.jamfProConfig, h]
  rfl

theorem Client_of_success (BuildClient : BuildClientFn) (c : ProviderConfig)
    (h : (BuildClient c.jamfProConfig).2 = none) :
    ProviderConfig.Client BuildClient c =
      { client := some { Conn := (BuildClient c.jamfProConfig).1 }
        diags := []
        buildClient := [c.jamfProConfig] } := by
  unfold ProviderConfig.jamfProConfig at h
  simp only [ProviderConfig.Client, ProviderConfig.jamfProConfig, h]

/-- C9: `ProviderConfig.Client` calls `BuildClient` once, with the receiver's instance name,
client id, client secret and debug mode; it returns a non-nil client with empty
diagnostics exactly when the factory returns no error, and then `Conn` is the factory's
result; when the factory returns an error it returns a nil client and the single error
diagnostic `Client Creation Failed`, whose detail ends with the factory's error text. -/
theorem C9_Client_contract (BuildClient : BuildClientFn) (c : ProviderConfig) :
    (ProviderConfig.Client BuildClient c).buildClient =
        [{ InstanceName := c.InstanceName, ClientID := c.ClientID
           ClientSecret := c.ClientSecret, DebugMode := c.DebugMode }] ∧
    (((ProviderConfig.Client BuildClient c).client ≠ none ∧
        (ProviderConfig.Client BuildClient c).diags = []) ↔
      (BuildClient c.jamfProConfig).2 = none) ∧
    ((BuildClient c.jamfProConfig).2 = none →
      (ProviderConfig.Client BuildClient c).client =
        some { Conn := (BuildClient c.jamfProConfig).1 }) ∧
    (∀ e, (BuildClient c.jamfProConfig).2 = some e →
      (ProviderConfig.Client BuildClient c).client = none ∧
      (∃ detail pre,
        (ProviderConfig.Client BuildClient c).diags =
          [{ severity := Severity.Error, summary := "Client Creation Failed"
             detail := detail, path := none }] ∧
        detail = pre ++ e)) := by
  cases h : (BuildClient c.jamfProConfig).2 with
  | none =>
    rw [Client_of_success BuildClient c h]
    refine ⟨rfl, ?_, ?_, ?_⟩
    · simp
    · intro _; rfl
    · intro e he; cases he
  | some e =>
    rw [Client_of_error BuildClient c e h]
    refine ⟨rfl, ?_, ?_, ?_⟩
    · simp
    · intro h2; cases h2
    · intro e2 he
      cases he
      exact ⟨rfl, _, _, rfl, rfl⟩

/-! ## `Configure`: the phases -/

theorem attributeErrorsAt_append (ds es : Diagnostics) (root : String) :
    attributeErrorsAt (ds ++ es) root = attributeErrorsAt ds root ++ attributeErrorsAt es root := by
  simp [attributeErrorsAt]

theorem attributeErrorsAt_of_HasError_eq_false {ds : Diagnostics}
    (h : Diagnostics.HasError ds = false) (root : String) : attributeErrorsAt ds root = [] := by
  rw [HasError_eq_false_iff] at h
  simp only [attributeErrorsAt, List.filter_eq_nil_iff]
  intro d hd
  simp [h d hd]

theorem NewAttributeErrorDiagnostic_eq_iff (r s d r2 s2 d2 : String) :
    NewAttributeErrorDiagnostic r s d = NewAttributeErrorDiagnostic r2 s2 d2 ↔
      s = s2 ∧ d = d2 ∧ r = r2 := by
  simp [NewAttributeErrorDiagnostic]

theorem unknownChecks_append (m : jamfproProviderModel) {ds : Diagnostics}
    (h : Diagnostics.HasError ds = false) :
    unknownChecks m ds = ds ++ unknownChecks m [] := by
  have hn : ∀ root summary detail, NewAttributeErrorDiagnostic root summary detail ∉ ds :=
    fun _ _ _ => not_mem_of_HasError_eq_false h rfl
  cases h1 : m.InstanceName.IsUnknown <;> cases h2 : m.ClientID.IsUnknown <;>
    cases h3 : m.ClientSecret.IsUnknown <;> cases h4 : m.Debug.IsUnknown <;>
    simp [unknownChecks, h1, h2, h3, h4, Diagnostics.AddAttributeError, Diagnostics.Append, hn,
      NewAttributeErrorDiagnostic_eq_iff]

theorem unknownChecks_of_allKnown (m : jamfproProviderModel) (ds : Diagnostics)
    (h : allKnown m = true) : unknownChecks m ds = ds := by
  simp only [allKnown, Bool.and_eq_true, Bool.not_eq_true'] at h
  obtain ⟨⟨⟨h1, h2⟩, h3⟩, h4⟩ := h
  simp [unknownChecks, h1, h2, h3, h4]

theorem unknownChecks_HasError_of_not_allKnown (m : jamfproProviderModel)
    (h : allKnown m = false) : Diagnostics.HasError (unknownChecks m []) = true := by
  revert h
  cases h1 : m.InstanceName.IsUnknown <;> cases h2 : m.ClientID.IsUnknown <;>
    cases h3 : m.ClientSecret.IsUnknown <;> cases h4 : m.Debug.IsUnknown <;>
    simp [allKnown, unknownChecks, h1, h2, h3, h4, Diagnostics.AddAttributeError,
      Diagnostics.Append, Diagnostics.HasError, NewAttributeErrorDiagnostic]

theorem HasError_append (ds es : Diagnostics) :
    Diagnostics.HasError (ds ++ es) = (Diagnostics.HasError ds || Diagnostics.HasError es) := by
  simp [Diagnostics.HasError]

theorem Configure_of_bind_error (env : Env) (BuildClient : BuildClientFn)
    (req : ConfigureRequest) (resp : ConfigureResponse) (h : bindOk req resp = false) :
    Configure env BuildClient req resp =
      ({ resp with Diagnostics := Diagnostics.Append resp.Diagnostics req.Config.diags },
        { getenv := [], buildClient := [] }) := by
  simp only [bindOk, Bool.not_eq_false'] at h
  simp [Configure, h]

theorem Configure_of_unknown (env : Env) (BuildClient : BuildClientFn)
    (req : ConfigureRequest) (resp : ConfigureResponse) (hb : bindOk req resp = true)
    (hu : allKnown req.Config.model = false) :
    Configure env BuildClient req resp =
      ({ resp with
          Diagnostics := Diagnostics.Append resp.Diagnostics req.Config.diags ++
            unknownChecks req.Config.model [] },
        { getenv := [], buildClient := [] }) := by
  simp only [bindOk, Bool.not_eq_true'] at hb
  have h2 := unknownChecks_HasError_of_not_allKnown _ hu
  simp [Configure, hb, unknownChecks_append _ hb, HasError_append, h2]

theorem Configure_of_known (env : Env) (BuildClient : BuildClientFn)
    (req : ConfigureRequest) (resp : ConfigureResponse) (hb : bindOk req resp = true)
    (hk : allKnown req.Config.model = true) :
    Configure env BuildClient req resp =
      ((configureResolved BuildClient (resolve env req.Config.model)
          { resp with Diagnostics := Diagnostics.Append resp.Diagnostics req.Config.diags }).1,
        { getenv := resolveGetenv
          buildClient := (configureResolved BuildClient (resolve env req.Config.model)
            { resp with
              Diagnostics := Diagnostics.Append resp.Diagnostics req.Config.diags }).2 }) := by
  simp only [bindOk, Bool.not_eq_true'] at hb
  simp [Configure, hb, unknownChecks_of_allKnown _ _ hk]

/-! ## `Configure`: from the resolved values on -/

theorem ParseBool_of_true {s : String} (h : s ∈ ["1", "t", "T", "TRUE", "true", "True"]) :
    strconv.ParseBool s = (true, none) := by
  simp only [strconv.ParseBool, h, if_true]

theorem ParseBool_of_false {s : String} (h : s ∈ ["0", "f", "F", "FALSE", "false", "False"]) :
    strconv.ParseBool s = (false, none) := by
  have h2 : s ∉ ["1", "t", "T", "TRUE", "true", "True"] := by
    simp only [List.mem_cons, List.mem_singleton, List.not_mem_nil, or_false] at h ⊢
    rcases h with h | h | h | h | h | h <;> subst h <;> decide
  simp only [strconv.ParseBool, h, h2, if_true, if_false]

theorem ParseBool_of_other {s : String} (h1 : s ∉ ["1", "t", "T", "TRUE", "true", "True"])
    (h2 : s ∉ ["0", "f", "F", "FALSE", "false", "False"]) :
    (strconv.ParseBool s).2.isSome = true := by
  simp only [strconv.ParseBool, h1, h2, if_false, Option.isSome_some]

theorem Client_buildClient (BuildClient : BuildClientFn) (c : ProviderConfig) :
    (ProviderConfig.Client BuildClient c).buildClient = [c.jamfProConfig] := by
  cases h : (BuildClient c.jamfProConfig).2 with
  | none => rw [Client_of_success BuildClient c h]
  | some e => rw [Client_of_error BuildClient c e h]

theorem configureResolved_of_missing (BuildClient : BuildClientFn) (r : Resolved)
    (resp : ConfigureResponse) (hn : Diagnostics.HasError resp.Diagnostics = false)
    (h : r.instanceName = "" ∨ r.clientID = "" ∨ r.clientSecret = "") :
    ∃ detail, configureResolved BuildClient r resp =
      ({ resp with
          Diagnostics := resp.Diagnostics ++ [NewErrorDiagnostic "Missing Configuration" detail] },
        []) := by
  simp only [configureResolved, h, if_true, AddError_of_HasError_eq_false hn]
  exact ⟨_, rfl⟩

theorem configureResolved_of_invalid (BuildClient : BuildClientFn) (r : Resolved)
    (resp : ConfigureResponse) (hn : Diagnostics.HasError resp.Diagnostics = false)
    (h : ¬ (r.instanceName = "" ∨ r.clientID = "" ∨ r.clientSecret = ""))
    (hp : (strconv.ParseBool r.debugMode).2.isSome = true) :
    configureResolved BuildClient r resp =
      ({ resp with
          Diagnostics := resp.Diagnostics ++
            [NewErrorDiagnostic "Invalid Debug Mode Value"
              "Debug mode value must be 'true' or 'false'."] },
        []) := by
  simp only [configureResolved, h, if_false, hp, if_true, AddError_of_HasError_eq_false hn]

theorem configureResolved_of_valid (BuildClient : BuildClientFn) (r : Resolved)
    (resp : ConfigureResponse) (hn : Diagnostics.HasError resp.Diagnostics = false)
    (h : ¬ (r.instanceName = "" ∨ r.clientID = "" ∨ r.clientSecret = ""))
    (debug : Bool) (hp : strconv.ParseBool r.debugMode = (debug, none)) :
    configureResolved BuildClient r resp =
      ({ resp with
          DataSourceData := some (ProviderConfig.Client BuildClient
            { InstanceName := r.instanceName, ClientID := r.clientID
              ClientSecret := r.clientSecret, DebugMode := debug, UserAgent := "" }).client
          ResourceData := some (ProviderConfig.Client BuildClient
            { InstanceName := r.instanceName, ClientID := r.clientID
              ClientSecret := r.clientSecret, DebugMode := debug, UserAgent := "" }).client },
        [{ InstanceName := r.instanceName, ClientID := r.clientID
           ClientSecret := r.clientSecret, DebugMode := debug }]) := by
  have hc := Client_buildClient BuildClient
    { InstanceName := r.instanceName, ClientID := r.clientID
      ClientSecret := r.clientSecret, DebugMode := debug, UserAgent := "" }
  simp only [configureResolved, h, if_false, hp, Option.isSome_none, hn, hc]
  simp [ProviderConfig.jamfProConfig]

theorem configureResolved_calls (BuildClient : BuildClientFn) (r : Resolved)
    (resp : ConfigureResponse) :
    (configureResolved BuildClient r resp).2 = [] ∨
    (configureResolved BuildClient r resp).2 =
      [{ InstanceName := r.instanceName, ClientID := r.clientID
         ClientSecret := r.clientSecret
         DebugMode := (strconv.ParseBool r.debugMode).1 }] := by
  rcases hp : strconv.ParseBool r.debugMode with ⟨debug, err⟩
  simp only [configureResolved, hp]
  split_ifs
  · exact Or.inl rfl
  · exact Or.inl rfl
  · exact Or.inl rfl
  · cases err with
    | none => right; simp [Client_buildClient, ProviderConfig.jamfProConfig]
    | some e => right; simp [Client_buildClient, ProviderConfig.jamfProConfig]

theorem Configure_calls (env : Env) (BuildClient : BuildClientFn) (req : ConfigureRequest)
    (resp : ConfigureResponse) :
    (Configure env BuildClient req resp).2.buildClient = [] ∨
    (Configure env BuildClient req resp).2.buildClient =
      [{ InstanceName := (resolve env req.Config.model).instanceName
         ClientID := (resolve env req.Config.model).clientID
         ClientSecret := (resolve env req.Config.model).clientSecret
         DebugMode := (strconv.ParseBool (resolve env req.Config.model).debugMode).1 }] := by
  simp only [Configure]
  split_ifs
  · exact Or.inl rfl
  · exact Or.inl rfl
  · exact configureResolved_calls _ _ _

theorem Errors_append (ds es : Diagnostics) :
    Diagnostics.Errors (ds ++ es) = Diagnostics.Errors ds ++ Diagnostics.Errors es := by
  simp [Diagnostics.Errors]

theorem bindOk_iff (req : ConfigureRequest) (resp : ConfigureResponse) :
    bindOk req resp = true ↔
      Diagnostics.HasError (Diagnostics.Append resp.Diagnostics req.Config.diags) = false := by
  simp [bindOk]

theorem attributeErrorsAt_unknownChecks (m : jamfproProviderModel) :
    (attributeErrorsAt (unknownChecks m []) "instance_name").length =
        (if m.InstanceName.IsUnknown then 1 else 0) ∧
    (attributeErrorsAt (unknownChecks m []) "client_id").length =
        (if m.ClientID.IsUnknown then 1 else 0) ∧
    (attributeErrorsAt (unknownChecks m []) "client_secret").length =
        (if m.ClientSecret.IsUnknown then 1 else 0) ∧
    (attributeErrorsAt (unknownChecks m []) "debug_mode").length =
        (if m.Debug.IsUnknown then 1 else 0) := by
  cases h1 : m.InstanceName.IsUnknown <;> cases h2 : m.ClientID.IsUnknown <;>
    cases h3 : m.ClientSecret.IsUnknown <;> cases h4 : m.Debug.IsUnknown <;>
    simp only [unknownChecks, h1, h2, h3, h4] <;> decide

theorem configureResolved_attributeErrorsAt (BuildClient : BuildClientFn) (r : Resolved)
    (resp : ConfigureResponse) (hn : Diagnostics.HasError resp.Diagnostics = false)
    (root : String) :
    attributeErrorsAt (configureResolved BuildClient r resp).1.Diagnostics root = [] := by
  have hbase := attributeErrorsAt_of_HasError_eq_false hn root
  by_cases h : r.instanceName = "" ∨ r.clientID = "" ∨ r.clientSecret = ""
  · obtain ⟨detail, hd⟩ := configureResolved_of_missing BuildClient r resp hn h
    rw [hd]
    simp only [attributeErrorsAt_append, hbase]
    rfl
  · rcases hp : strconv.ParseBool r.debugMode with ⟨debug, err⟩
    cases err with
    | none =>
      rw [configureResolved_of_valid BuildClient r resp hn h debug hp]
      exact hbase
    | some e =>
      rw [configureResolved_of_invalid BuildClient r resp hn h (by rw [hp]; rfl)]
      simp only [attributeErrorsAt_append, hbase]
      rfl

/-- C7: when the configuration bound without error, the response holds exactly one
attribute error at the path of each of `instance_name`, `client_id`, `client_secret` and
`debug_mode` whose value is unknown and none at the path of a known one, all of them
reported in the same pass; and when some value is unknown `Configure` returns after that
pass: it reads no environment variable, does not call `BuildClient`, leaves the client
data as it was, and its result does not depend on the environment or the factory. -/
theorem C7_unknown_values_all_reported (env : Env) (BuildClient : BuildClientFn)
    (req : ConfigureRequest) (resp : ConfigureResponse) (hb : bindOk req resp = true) :
    ((attributeErrorsAt (Configure env BuildClient req resp).1.Diagnostics
          "instance_name").length =
        (if req.Config.model.InstanceName.IsUnknown then 1 else 0) ∧
     (attributeErrorsAt (Configure env BuildClient req resp).1.Diagnostics
          "client_id").length =
        (if req.Config.model.ClientID.IsUnknown then 1 else 0) ∧
     (attributeErrorsAt (Configure env BuildClient req resp).1.Diagnostics
          "client_secret").length =
        (if req.Config.model.ClientSecret.IsUnknown then 1 else 0) ∧
     (attributeErrorsAt (Configure env BuildClient req resp).1.Diagnostics
          "debug_mode").length =
        (if req.Config.model.Debug.IsUnknown then 1 else 0)) ∧
    (allKnown req.Config.model = false →
      (Configure env BuildClient req resp).2 = { getenv := [], buildClient := [] } ∧
      (Configure env BuildClient req resp).1.DataSourceData = resp.DataSourceData ∧
      (Configure env BuildClient req resp).1.ResourceData = resp.ResourceData ∧
      ∀ (env2 : Env) (BuildClient2 : BuildClientFn),
        Configure env2 BuildClient2 req resp = Configure env BuildClient req resp) := by
  have hn := (bindOk_iff req resp).1 hb
  cases hk : allKnown req.Config.model with
  | false =>
    have hc := fun e b => Configure_of_unknown e b req resp hb hk
    refine ⟨?_, fun _ => ?_⟩
    · rw [hc env BuildClient]
      simp only [attributeErrorsAt_append, attributeErrorsAt_of_HasError_eq_false hn,
        List.nil_append]
      exact attributeErrorsAt_unknownChecks req.Config.model
    · rw [hc env BuildClient]
      refine ⟨rfl, rfl, rfl, fun e b => hc e b⟩
  | true =>
    refine ⟨?_, fun h => by cases h⟩
    rw [Configure_of_known env BuildClient req resp hb hk]
    have hz := configureResolved_attributeErrorsAt BuildClient (resolve env req.Config.model)
      { resp with Diagnostics := Diagnostics.Append resp.Diagnostics req.Config.diags } hn
    simp only [allKnown, Bool.and_eq_true, Bool.not_eq_true'] at hk
    obtain ⟨⟨⟨h1, h2⟩, h3⟩, h4⟩ := hk
    simp [hz, h1, h2, h3, h4]

/-- C7 at a request with an unknown instance name, client secret and debug mode. -/
theorem C7_unknown_values_all_reported_witness :
    bindOk (requestOf .unknown (.value "id") .unknown .unknown) freshResponse = true ∧
    (attributeErrorsAt (Configure emptyEnv workingFactory
        (requestOf .unknown (.value "id") .unknown .unknown) freshResponse).1.Diagnostics
      "client_secret").length = 1 ∧
    (Configure emptyEnv workingFactory
        (requestOf .unknown (.value "id") .unknown .unknown) freshResponse).2 =
      { getenv := [], buildClient := [] } :=
  ⟨by decide,
   (C7_unknown_values_all_reported emptyEnv workingFactory
      (requestOf .unknown (.value "id") .unknown .unknown) freshResponse (by decide)).1.2.2.1,
   ((C7_unknown_values_all_reported emptyEnv workingFactory
      (requestOf .unknown (.value "id") .unknown .unknown) freshResponse (by decide)).2
        (by decide)).1⟩

/-- C5: with the configuration bound and all four values known, if the resolved instance
name, client id or client secret is empty then the only error in the response is
`Missing Configuration` (whatever the debug-mode string is), `BuildClient` is not called
and `DataSourceData` and `ResourceData` are left as they were; if all three are non-empty
no error of the response is titled `Missing Configuration`. -/
theorem C5_missing_configuration (env : Env) (BuildClient : BuildClientFn)
    (req : ConfigureRequest) (resp : ConfigureResponse) (hb : bindOk req resp = true)
    (hk : allKnown req.Config.model = true) :
    (((resolve env req.Config.model).instanceName = "" ∨
        (resolve env req.Config.model).clientID = "" ∨
        (resolve env req.Config.model).clientSecret = "") →
      (∃ detail, Diagnostics.Errors (Configure env BuildClient req resp).1.Diagnostics =
        [{ severity := Severity.Error, summary := "Missing Configuration"
           detail := detail, path := none }]) ∧
      (Configure env BuildClient req resp).2.buildClient = [] ∧
      (Configure env BuildClient req resp).1.DataSourceData = resp.DataSourceData ∧
      (Configure env BuildClient req resp).1.ResourceData = resp.ResourceData) ∧
    (¬ ((resolve env req.Config.model).instanceName = "" ∨
        (resolve env req.Config.model).clientID = "" ∨
        (resolve env req.Config.model).clientSecret = "") →
      ∀ d ∈ Diagnostics.Errors (Configure env BuildClient req resp).1.Diagnostics,
        d.summary ≠ "Missing Configuration") := by
  have hn := (bindOk_iff req resp).1 hb
  have he := Errors_eq_nil_of_HasError_eq_false hn
  rw [Configure_of_known env BuildClient req resp hb hk]
  constructor
  · intro h
    obtain ⟨detail, hd⟩ := configureResolved_of_missing BuildClient
      (resolve env req.Config.model)
      { resp with Diagnostics := Diagnostics.Append resp.Diagnostics req.Config.diags } hn h
    rw [hd]
    refine ⟨⟨detail, ?_⟩, rfl, rfl, rfl⟩
    simp only [Errors_append, he, List.nil_append]
    rfl
  · intro h d hd
    rcases hp : strconv.ParseBool (resolve env req.Config.model).debugMode with ⟨debug, err⟩
    cases err with
    | none =>
      rw [configureResolved_of_valid BuildClient _ _ hn h debug hp] at hd
      simp only [he] at hd
      cases hd
    | some e =>
      rw [configureResolved_of_invalid BuildClient _ _ hn h (by rw [hp]; rfl)] at hd
      simp only [Errors_append, he, List.nil_append] at hd
      have hd2 : d = NewErrorDiagnostic "Invalid Debug Mode Value"
          "Debug mode value must be 'true' or 'false'." := by
        simpa [Diagnostics.Errors, NewErrorDiagnostic] using hd
      rw [hd2]
      decide

/-- C5 at a request without client secret and with an unparseable debug mode, and at a
complete request. -/
theorem C5_missing_configuration_witness :
    (bindOk (requestOf (.value "acme") (.value "id") .null (.value "maybe")) freshResponse = true ∧
      allKnown (requestOf (.value "acme") (.value "id") .null (.value "maybe")).Config.model
        = true) ∧
    ((∃ detail, Diagnostics.Errors (Configure emptyEnv workingFactory
          (requestOf (.value "acme") (.value "id") .null (.value "maybe"))
          freshResponse).1.Diagnostics =
        [{ severity := Severity.Error, summary := "Missing Configuration"
           detail := detail, path := none }]) ∧
      (Configure emptyEnv workingFactory
          (requestOf (.value "acme") (.value "id") .null (.value "maybe"))
          freshResponse).2.buildClient = [] ∧
      (Configure emptyEnv workingFactory
          (requestOf (.value "acme") (.value "id") .null (.value "maybe"))
          freshResponse).1.DataSourceData = none ∧
      (Configure emptyEnv workingFactory
          (requestOf (.value "acme") (.value "id") .null (.value "maybe"))
          freshResponse).1.ResourceData = none) ∧
    (∀ d ∈ Diagnostics.Errors (Configure emptyEnv workingFactory
          (requestOf (.value "acme") (.value "id") (.value "secret") (.value "maybe"))
          freshResponse).1.Diagnostics,
        d.summary ≠ "Missing Configuration") :=
  ⟨⟨by decide, by decide⟩,
   (C5_missing_configuration emptyEnv workingFactory
      (requestOf (.value "acme") (.value "id") .null (.value "maybe")) freshResponse
      (by decide) (by decide)).1 (by decide),
   (C5_missing_configuration emptyEnv workingFactory
      (requestOf (.value "acme") (.value "id") (.value "secret") (.value "maybe")) freshResponse
      (by decide) (by decide)).2 (by decide)⟩

/-- C4, as the code has it: with the configuration bound, all values known and the
resolved instance name, client id and client secret non-empty, `Configure` builds the
client with `DebugMode` true when the resolved debug-mode string is one of `1`, `t`, `T`,
`TRUE`, `true`, `True`, with `DebugMode` false when it is one of `0`, `f`, `F`, `FALSE`,
`false`, `False`, and for every other string (the empty one included) reports the single
error `Invalid Debug Mode Value`, calls no factory and leaves the client data as it
was. -/
theorem C4_debug_mode_ParseBool (env : Env) (BuildClient : BuildClientFn)
    (req : ConfigureRequest) (resp : ConfigureResponse) (hb : bindOk req resp = true)
    (hk : allKnown req.Config.model = true)
    (hne : (resolve env req.Config.model).instanceName ≠ "" ∧
      (resolve env req.Config.model).clientID ≠ "" ∧
      (resolve env req.Config.model).clientSecret ≠ "") :
    ((resolve env req.Config.model).debugMode ∈ ["1", "t", "T", "TRUE", "true", "True"] →
      (Configure env BuildClient req resp).2.buildClient =
        [{ InstanceName := (resolve env req.Config.model).instanceName
           ClientID := (resolve env req.Config.model).clientID
           ClientSecret := (resolve env req.Config.model).clientSecret
           DebugMode := true }] ∧
      Diagnostics.Errors (Configure env BuildClient req resp).1.Diagnostics = []) ∧
    ((resolve env req.Config.model).debugMode ∈ ["0", "f", "F", "FALSE", "false", "False"] →
      (Configure env BuildClient req resp).2.buildClient =
        [{ InstanceName := (resolve env req.Config.model).instanceName
           ClientID := (resolve env req.Config.model).clientID
           ClientSecret := (resolve env req.Config.model).clientSecret
           DebugMode := false }] ∧
      Diagnostics.Errors (Configure env BuildClient req resp).1.Diagnostics = []) ∧
    ((resolve env req.Config.model).debugMode ∉ ["1", "t", "T", "TRUE", "true", "True"] →
      (resolve env req.Config.model).debugMode ∉ ["0", "f", "F", "FALSE", "false", "False"] →
      Diagnostics.Errors (Configure env BuildClient req resp).1.Diagnostics =
        [{ severity := Severity.Error, summary := "Invalid Debug Mode Value"
           detail := "Debug mode value must be 'true' or 'false'.", path := none }] ∧
      (Configure env BuildClient req resp).2.buildClient = [] ∧
      (Configure env BuildClient req resp).1.DataSourceData = resp.DataSourceData ∧
      (Configure env BuildClient req resp).1.ResourceData = resp.ResourceData) := by
  have hn := (bindOk_iff req resp).1 hb
  have he := Errors_eq_nil_of_HasError_eq_false hn
  have h : ¬ ((resolve env req.Config.model).instanceName = "" ∨
      (resolve env req.Config.model).clientID = "" ∨
      (resolve env req.Config.model).clientSecret = "") := by
    rintro (h | h | h)
    · exact hne.1 h
    · exact hne.2.1 h
    · exact hne.2.2 h
  rw [Configure_of_known env BuildClient req resp hb hk]
  refine ⟨fun ht => ?_, fun hf => ?_, fun ht hf => ?_⟩
  · rw [configureResolved_of_valid BuildClient _ _ hn h true (ParseBool_of_true ht)]
    exact ⟨rfl, he⟩
  · rw [configureResolved_of_valid BuildClient _ _ hn h false (ParseBool_of_false hf)]
    exact ⟨rfl, he⟩
  · rw [configureResolved_of_invalid BuildClient _ _ hn h (ParseBool_of_other ht hf)]
    refine ⟨?_, rfl, rfl, rfl⟩
    simp only [Errors_append, he, List.nil_append]
    rfl

/-- C4 at the debug-mode strings `T` and `yes`. -/
theorem C4_debug_mode_ParseBool_witness :
    (bindOk (requestOf (.value "acme") (.value "id") (.value "secret") (.value "T"))
        freshResponse = true ∧
      allKnown (requestOf (.value "acme") (.value "id") (.value "secret")
        (.value "T")).Config.model = true) ∧
    (Configure emptyEnv workingFactory
        (requestOf (.value "acme") (.value "id") (.value "secret") (.value "T"))
        freshResponse).2.buildClient =
      [{ InstanceName := "acme", ClientID := "id", ClientSecret := "secret"
         DebugMode := true }] ∧
    (Configure emptyEnv workingFactory
        (requestOf (.value "acme") (.value "id") (.value "secret") (.value "yes"))
        freshResponse).2.buildClient = [] :=
  ⟨⟨by decide, by decide⟩,
   ((C4_debug_mode_ParseBool emptyEnv workingFactory
      (requestOf (.value "acme") (.value "id") (.value "secret") (.value "T")) freshResponse
      (by decide) (by decide) (by decide)).1 (by decide)).1,
   ((C4_debug_mode_ParseBool emptyEnv workingFactory
      (requestOf (.value "acme") (.value "id") (.value "secret") (.value "yes")) freshResponse
      (by decide) (by decide) (by decide)).2.2 (by decide) (by decide)).2.1⟩

/-- C4 as the spec words it fails both ways: the debug-mode string `1` differs from `true`
and `false` whatever the case, and `Configure` builds the client with it; the string
`TrUe` equals `true` when case is ignored, and `Configure` reports
`Invalid Debug Mode Value` and builds no client. -/
theorem C4_case_insensitive_counterexample :
    (specEqualsIgnoringCase "1" "true" = false ∧ specEqualsIgnoringCase "1" "false" = false ∧
      (Configure emptyEnv workingFactory
          (requestOf (.value "acme") (.value "id") (.value "secret") (.value "1"))
          freshResponse).2.buildClient =
        [{ InstanceName := "acme", ClientID := "id", ClientSecret := "secret"
           DebugMode := true }] ∧
      (Configure emptyEnv workingFactory
          (requestOf (.value "acme") (.value "id") (.value "secret") (.value "1"))
          freshResponse).1.Diagnostics = []) ∧
    (specEqualsIgnoringCase "TrUe" "true" = true ∧
      (Configure emptyEnv workingFactory
          (requestOf (.value "acme") (.value "id") (.value "secret") (.value "TrUe"))
          freshResponse).2.buildClient = [] ∧
      (Configure emptyEnv workingFactory
          (requestOf (.value "acme") (.value "id") (.value "secret") (.value "TrUe"))
          freshResponse).1.Diagnostics =
        [{ severity := Severity.Error, summary := "Invalid Debug Mode Value"
           detail := "Debug mode value must be 'true' or 'false'.", path := none }]) := by
  decide

/-- C1: with all four values known, each of instance name, client id, client secret and
debug mode resolves to the configuration value when that value is not null, whatever the
environment holds, and to the environment variable of the same name when it is null;
every config `Configure` hands to `BuildClient` carries the resolved instance name, client
id and client secret, and `Configure` does hand one over once the configuration bound,
the three are non-empty and the debug mode parses. -/
theorem C1_resolution_order (env : Env) (BuildClient : BuildClientFn) (req : ConfigureRequest)
    (resp : ConfigureResponse) (hk : allKnown req.Config.model = true) :
    ((∀ v, req.Config.model.InstanceName = .value v →
        (resolve env req.Config.model).instanceName = v) ∧
      (req.Config.model.InstanceName = .null →
        (resolve env req.Config.model).instanceName = env "instance_name")) ∧
    ((∀ v, req.Config.model.ClientID = .value v →
        (resolve env req.Config.model).clientID = v) ∧
      (req.Config.model.ClientID = .null →
        (resolve env req.Config.model).clientID = env "client_id")) ∧
    ((∀ v, req.Config.model.ClientSecret = .value v →
        (resolve env req.Config.model).clientSecret = v) ∧
      (req.Config.model.ClientSecret = .null →
        (resolve env req.Config.model).clientSecret = env "client_secret")) ∧
    ((∀ v, req.Config.model.Debug = .value v →
        (resolve env req.Config.model).debugMode = v) ∧
      (req.Config.model.Debug = .null →
        (resolve env req.Config.model).debugMode = env "debug_mode")) ∧
    (∀ c ∈ (Configure env BuildClient req resp).2.buildClient,
      c.InstanceName = (resolve env req.Config.model).instanceName ∧
      c.ClientID = (resolve env req.Config.model).clientID ∧
      c.ClientSecret = (resolve env req.Config.model).clientSecret) ∧
    (bindOk req resp = true →
      (resolve env req.Config.model).instanceName ≠ "" →
      (resolve env req.Config.model).clientID ≠ "" →
      (resolve env req.Config.model).clientSecret ≠ "" →
      (strconv.ParseBool (resolve env req.Config.model).debugMode).2 = none →
      (Configure env BuildClient req resp).2.buildClient =
        [{ InstanceName := (resolve env req.Config.model).instanceName
           ClientID := (resolve env req.Config.model).clientID
           ClientSecret := (resolve env req.Config.model).clientSecret
           DebugMode := (strconv.ParseBool (resolve env req.Config.model).debugMode).1 }]) := by
  refine ⟨⟨fun v h => by simp [resolve, h, TypesString.IsNull, TypesString.ValueString],
      fun h => by simp [resolve, h, TypesString.IsNull]⟩,
    ⟨fun v h => by simp [resolve, h, TypesString.IsNull, TypesString.ValueString],
      fun h => by simp [resolve, h, TypesString.IsNull]⟩,
    ⟨fun v h => by simp [resolve, h, TypesString.IsNull, TypesString.ValueString],
      fun h => by simp [resolve, h, TypesString.IsNull]⟩,
    ⟨fun v h => by simp [resolve, h, TypesString.IsNull, TypesString.ValueString],
      fun h => by simp [resolve, h, TypesString.IsNull]⟩, ?_, ?_⟩
  · intro c hc
    rcases Configure_calls env BuildClient req resp with h0 | h1
    · rw [h0] at hc; cases hc
    · rw [h1] at hc
      simp only [List.mem_singleton] at hc
      subst hc
      exact ⟨rfl, rfl, rfl⟩
  · intro hb h1 h2 h3 hp
    have hn := (bindOk_iff req resp).1 hb
    have h : ¬ ((resolve env req.Config.model).instanceName = "" ∨
        (resolve env req.Config.model).clientID = "" ∨
        (resolve env req.Config.model).clientSecret = "") := by
      rintro (h | h | h)
      · exact h1 h
      · exact h2 h
      · exact h3 h
    rw [Configure_of_known env BuildClient req resp hb hk]
    rw [configureResolved_of_valid BuildClient _ _ hn h
      (strconv.ParseBool (resolve env req.Config.model).debugMode).1
      (by rw [← hp])]

/-- C1 at a request that sets an instance name next to the environment variable of the
same name and leaves the client secret to the environment. -/
theorem C1_resolution_order_witness :
    allKnown (requestOf (.value "acme") (.value "id") .null (.value "true")).Config.model
      = true ∧
    (resolve sampleEnv
      (requestOf (.value "acme") (.value "id") .null (.value "true")).Config.model).instanceName
      = "acme" ∧
    (resolve sampleEnv
      (requestOf (.value "acme") (.value "id") .null (.value "true")).Config.model).clientSecret
      = "env-secret" ∧
    (Configure sampleEnv workingFactory
        (requestOf (.value "acme") (.value "id") .null (.value "true"))
        freshResponse).2.buildClient =
      [{ InstanceName := "acme", ClientID := "id", ClientSecret := "env-secret"
         DebugMode := true }] :=
  ⟨by decide,
   (C1_resolution_order sampleEnv workingFactory
      (requestOf (.value "acme") (.value "id") .null (.value "true")) freshResponse
      (by decide)).1.1 "acme" rfl,
   (C1_resolution_order sampleEnv workingFactory
      (requestOf (.value "acme") (.value "id") .null (.value "true")) freshResponse
      (by decide)).2.2.1.2 rfl,
   (C1_resolution_order sampleEnv workingFactory
      (requestOf (.value "acme") (.value "id") .null (.value "true")) freshResponse
      (by decide)).2.2.2.2.2 (by decide) (by decide) (by decide) (by decide) (by decide)⟩

/-- C2 fails on the code: with a valid configuration and a factory that returns the error
`boom`, `ProviderConfig.Client` does return one error diagnostic, but `Configure` leaves
the response without any diagnostic and sets `DataSourceData` and `ResourceData` to the
nil `*APIClient`. -/
theorem C2_factory_error_not_reported :
    (failingFactory { InstanceName := "acme", ClientID := "id", ClientSecret := "secret"
                      DebugMode := true }).2 = some "boom" ∧
    bindOk (requestOf (.value "acme") (.value "id") (.value "secret") (.value "true"))
      freshResponse = true ∧
    (Configure emptyEnv failingFactory
        (requestOf (.value "acme") (.value "id") (.value "secret") (.value "true"))
        freshResponse).2.buildClient =
      [{ InstanceName := "acme", ClientID := "id", ClientSecret := "secret"
         DebugMode := true }] ∧
    (ProviderConfig.Client failingFactory
        { InstanceName := "acme", ClientID := "id", ClientSecret := "secret"
          DebugMode := true, UserAgent := "" }).diags.length = 1 ∧
    (Configure emptyEnv failingFactory
        (requestOf (.value "acme") (.value "id") (.value "secret") (.value "true"))
        freshResponse).1.Diagnostics = [] ∧
    (Configure emptyEnv failingFactory
        (requestOf (.value "acme") (.value "id") (.value "secret") (.value "true"))
        freshResponse).1.DataSourceData = some none ∧
    (Configure emptyEnv failingFactory
        (requestOf (.value "acme") (.value "id") (.value "secret") (.value "true"))
        freshResponse).1.ResourceData = some none := by
  decide

/-- C3 fails on the code: the model binds the tag `debug`, which the provider schema does
not declare, and the schema declares `debug_mode`, which the model does not bind; the
schema's names are `instance_name`, `client_id`, `client_secret`, `debug_mode`, and
binding an object with these attributes into the model finds the mismatch of `debug`
against `debug_mode`. -/
theorem C3_model_tags_differ_from_schema :
    jamfproProvider.SchemaAttributeNames =
      ["instance_name", "client_id", "client_secret", "debug_mode"] ∧
    "debug" ∈ jamfproProviderModel.tfsdkTags ∧
    "debug" ∉ jamfproProvider.SchemaAttributeNames ∧
    "debug_mode" ∈ jamfproProvider.SchemaAttributeNames ∧
    "debug_mode" ∉ jamfproProviderModel.tfsdkTags ∧
    ¬ (∀ name, name ∈ jamfproProviderModel.tfsdkTags ↔
        name ∈ jamfproProvider.SchemaAttributeNames) ∧
    structObjectMismatch jamfproProviderModel.tfsdkTags jamfproProvider.SchemaAttributeNames =
      (["debug"], ["debug_mode"]) := by
  refine ⟨by decide, by decide, by decide, by decide, by decide, fun h => ?_, by decide⟩
  exact absurd ((h "debug").1 (by decide)) (by decide)

/-! ## The diagnostics and the client secret -/

theorem configureResolved_Diagnostics_congr (BuildClient1 BuildClient2 : BuildClientFn)
    (r1 r2 : Resolved) (resp : ConfigureResponse)
    (hi : r1.instanceName = r2.instanceName) (hc : r1.clientID = r2.clientID)
    (hd : r1.debugMode = r2.debugMode)
    (hs1 : r1.clientSecret ≠ "") (hs2 : r2.clientSecret ≠ "") :
    (configureResolved BuildClient1 r1 resp).1.Diagnostics =
      (configureResolved BuildClient2 r2 resp).1.Diagnostics := by
  rcases hp : strconv.ParseBool r2.debugMode with ⟨debug, err⟩
  simp only [configureResolved, hi, hc, hd, hs1, hs2, or_false, hp]
  split_ifs
  · rfl
  · rfl
  · rfl
  · cases err with
    | none => rfl
    | some e => rfl

theorem unknownChecks_congr (m1 m2 : jamfproProviderModel) (ds : Diagnostics)
    (h1 : m1.InstanceName.IsUnknown = m2.InstanceName.IsUnknown)
    (h2 : m1.ClientID.IsUnknown = m2.ClientID.IsUnknown)
    (h3 : m1.ClientSecret.IsUnknown = m2.ClientSecret.IsUnknown)
    (h4 : m1.Debug.IsUnknown = m2.Debug.IsUnknown) :
    unknownChecks m1 ds = unknownChecks m2 ds := by
  simp only [unknownChecks, h1, h2, h3, h4]

theorem IsUnknown_eq_false_of_resolved_ne (env : Env) (m : jamfproProviderModel)
    (h : (resolve env m).clientSecret ≠ "") : m.ClientSecret.IsUnknown = false := by
  cases hs : m.ClientSecret with
  | unknown => simp [resolve, hs, TypesString.IsNull, TypesString.ValueString] at h
  | null => rfl
  | value v => rfl

theorem resolve_congr (env1 env2 : Env) (m1 m2 : jamfproProviderModel)
    (hI : m1.InstanceName = m2.InstanceName) (hC : m1.ClientID = m2.ClientID)
    (hD : m1.Debug = m2.Debug)
    (henv : ∀ name, name ≠ "client_secret" → env1 name = env2 name) :
    (resolve env1 m1).instanceName = (resolve env2 m2).instanceName ∧
    (resolve env1 m1).clientID = (resolve env2 m2).clientID ∧
    (resolve env1 m1).debugMode = (resolve env2 m2).debugMode := by
  simp only [resolve, hI, hC, hD, henv "instance_name" (by decide),
    henv "client_id" (by decide), henv "debug_mode" (by decide), and_self]

/-- C6: two runs of `Configure` whose inputs agree except for the client secret (in the
configuration or in the environment variable `client_secret`), non-empty after
resolution in both, leave the same diagnostics, whatever the factories return; two runs
of `ProviderConfig.Client` on configs that differ only in the client secret, in which the
factories return the same error or none, return the same diagnostics; and the detail of
`Client Creation Failed` is `errorDetail` of the instance name, the client id, the debug
mode and the factory's error text. -/
theorem C6_diagnostics_independent_of_secret (env1 env2 : Env)
    (BuildClient1 BuildClient2 : BuildClientFn) (req1 req2 : ConfigureRequest)
    (resp : ConfigureResponse)
    (hd : req1.Config.diags = req2.Config.diags)
    (hI : req1.Config.model.InstanceName = req2.Config.model.InstanceName)
    (hC : req1.Config.model.ClientID = req2.Config.model.ClientID)
    (hD : req1.Config.model.Debug = req2.Config.model.Debug)
    (henv : ∀ name, name ≠ "client_secret" → env1 name = env2 name)
    (hs1 : (resolve env1 req1.Config.model).clientSecret ≠ "")
    (hs2 : (resolve env2 req2.Config.model).clientSecret ≠ "") :
    (Configure env1 BuildClient1 req1 resp).1.Diagnostics =
      (Configure env2 BuildClient2 req2 resp).1.Diagnostics ∧
    (∀ c1 c2 : ProviderConfig,
      c1.InstanceName = c2.InstanceName → c1.ClientID = c2.ClientID →
      c1.DebugMode = c2.DebugMode →
      (BuildClient1 c1.jamfProConfig).2 = (BuildClient2 c2.jamfProConfig).2 →
      (ProviderConfig.Client BuildClient1 c1).diags =
        (ProviderConfig.Client BuildClient2 c2).diags) ∧
    (∀ (c : ProviderConfig) (e : String), (BuildClient1 c.jamfProConfig).2 = some e →
      (ProviderConfig.Client BuildClient1 c).diags =
        [{ severity := Severity.Error, summary := "Client Creation Failed"
           detail := errorDetail c.InstanceName c.ClientID c.DebugMode e, path := none }]) := by
  refine ⟨?_, ?_, ?_⟩
  · have hu1 := IsUnknown_eq_false_of_resolved_ne env1 _ hs1
    have hu2 := IsUnknown_eq_false_of_resolved_ne env2 _ hs2
    have hb12 : bindOk req1 resp = bindOk req2 resp := by simp only [bindOk, hd]
    have hk12 : allKnown req1.Config.model = allKnown req2.Config.model := by
      simp only [allKnown, hI, hC, hD, hu1, hu2]
    obtain ⟨ri, rc, rd⟩ := resolve_congr env1 env2 _ _ hI hC hD henv
    cases hb : bindOk req2 resp with
    | false =>
      rw [Configure_of_bind_error env1 BuildClient1 req1 resp (hb12.trans hb),
        Configure_of_bind_error env2 BuildClient2 req2 resp hb, hd]
    | true =>
      cases hk : allKnown req2.Config.model with
      | false =>
        rw [Configure_of_unknown env1 BuildClient1 req1 resp (hb12.trans hb) (hk12.trans hk),
          Configure_of_unknown env2 BuildClient2 req2 resp hb hk, hd,
          unknownChecks_congr req1.Config.model req2.Config.model []
            (by rw [hI]) (by rw [hC]) (hu1.trans hu2.symm) (by rw [hD])]
      | true =>
        rw [Configure_of_known env1 BuildClient1 req1 resp (hb12.trans hb) (hk12.trans hk),
          Configure_of_known env2 BuildClient2 req2 resp hb hk, hd]
        exact configureResolved_Diagnostics_congr _ _ _ _ _ ri rc rd hs1 hs2
  · intro c1 c2 h1 h2 h3 hf
    cases he : (BuildClient2 c2.jamfProConfig).2 with
    | none =>
      rw [Client_of_success BuildClient1 c1 (hf.trans he), Client_of_success BuildClient2 c2 he]
    | some e =>
      rw [Client_of_error BuildClient1 c1 e (hf.trans he),
        Client_of_error BuildClient2 c2 e he, h1, h2, h3]
  · intro c e he
    rw [Client_of_error BuildClient1 c e he]
    rfl

/-- C6 at two requests with the client secrets `alpha` and `omega` and a failing
factory. -/
theorem C6_diagnostics_independent_of_secret_witness :
    ((resolve emptyEnv (requestOf (.value "acme") (.value "id") (.value "alpha")
        (.value "true")).Config.model).clientSecret ≠ "" ∧
      (resolve emptyEnv (requestOf (.value "acme") (.value "id") (.value "omega")
        (.value "true")).Config.model).clientSecret ≠ "") ∧
    (Configure emptyEnv failingFactory
        (requestOf (.value "acme") (.value "id") (.value "alpha") (.value "true"))
        freshResponse).1.Diagnostics =
      (Configure emptyEnv failingFactory
        (requestOf (.value "acme") (.value "id") (.value "omega") (.value "true"))
        freshResponse).1.Diagnostics ∧
    (ProviderConfig.Client failingFactory
        { InstanceName := "acme", ClientID := "id", ClientSecret := "alpha"
          DebugMode := true, UserAgent := "" }).diags =
      (ProviderConfig.Client failingFactory
        { InstanceName := "acme", ClientID := "id", ClientSecret := "omega"
          DebugMode := true, UserAgent := "" }).diags :=
  ⟨⟨by decide, by decide⟩,
   (C6_diagnostics_independent_of_secret emptyEnv emptyEnv failingFactory failingFactory
      (requestOf (.value "acme") (.value "id") (.value "alpha") (.value "true"))
      (requestOf (.value "acme") (.value "id") (.value "omega") (.value "true"))
      freshResponse rfl rfl rfl rfl (fun _ _ => rfl) (by decide) (by decide)).1,
   (C6_diagnostics_independent_of_secret emptyEnv emptyEnv failingFactory failingFactory
      (requestOf (.value "acme") (.value "id") (.value "alpha") (.value "true"))
      (requestOf (.value "acme") (.value "id") (.value "omega") (.value "true"))
      freshResponse rfl rfl rfl rfl (fun _ _ => rfl) (by decide) (by decide)).2.1
      _ _ rfl rfl rfl rfl⟩

/-! ## The resource: schema and `Create` -/

/-- C8: the resource schema has exactly the attributes `id` (computed only), `name`
(required), `enabled` (required bool), `description` (optional), `data_type` (optional,
validated by the data-type validator), `input_type` (nested list), `inventory_display`
(optional) and `recon_display` (optional and computed); `input_type` nests exactly `type`
(required, one of script, Text Field, LDAP Mapping, Pop-up Menu), `platform` (optional and
computed, one of Mac, Windows), `script` (optional and computed) and `choices`, a nested
list of the single string `value`; `inventory_display` allows six distinct values; no
attribute at any depth is both required and computed. -/
theorem C8_resource_schema_surface :
    attributeNames ResourceJamfProComputerExtensionAttributes.Schema =
      ["id", "name", "enabled", "description", "data_type", "input_type", "inventory_display",
        "recon_display"] ∧
    ((schemaAttr "id").map Attribute.kind = some AttributeKind.String ∧
      (schemaAttr "id").map Attribute.flags = some (false, false, true)) ∧
    ((schemaAttr "name").map Attribute.kind = some AttributeKind.String ∧
      (schemaAttr "name").map Attribute.flags = some (true, false, false)) ∧
    ((schemaAttr "enabled").map Attribute.kind = some AttributeKind.Bool ∧
      (schemaAttr "enabled").map Attribute.flags = some (true, false, false)) ∧
    ((schemaAttr "description").map Attribute.kind = some AttributeKind.String ∧
      (schemaAttr "description").map Attribute.flags = some (false, true, false)) ∧
    ((schemaAttr "data_type").map Attribute.kind = some AttributeKind.String ∧
      (schemaAttr "data_type").map Attribute.flags = some (false, true, false) ∧
      (schemaAttr "data_type").map Attribute.Validators = some [Validator.dataTypeValidator]) ∧
    ((schemaAttr "input_type").map Attribute.kind = some AttributeKind.ListNested ∧
      attributeNames inputTypeAttributes = ["type", "platform", "script", "choices"]) ∧
    ((schemaAttr "inventory_display").map Attribute.kind = some AttributeKind.String ∧
      (schemaAttr "inventory_display").map Attribute.flags = some (false, true, false) ∧
      (∃ valid, allowedValues (schemaAttr "inventory_display") = some valid ∧
        valid.length = 6 ∧ valid.Nodup)) ∧
    ((schemaAttr "recon_display").map Attribute.kind = some AttributeKind.String ∧
      (schemaAttr "recon_display").map Attribute.flags = some (false, true, true)) ∧
    ((attributeAt inputTypeAttributes "type").map Attribute.kind = some AttributeKind.String ∧
      (attributeAt inputTypeAttributes "type").map Attribute.flags =
        some (true, false, false) ∧
      allowedValues (attributeAt inputTypeAttributes "type") =
        some ["script", "Text Field", "LDAP Mapping", "Pop-up Menu"]) ∧
    ((attributeAt inputTypeAttributes "platform").map Attribute.kind =
        some AttributeKind.String ∧
      (attributeAt inputTypeAttributes "platform").map Attribute.flags =
        some (false, true, true) ∧
      allowedValues (attributeAt inputTypeAttributes "platform") =
        some ["Mac", "Windows"]) ∧
    ((attributeAt inputTypeAttributes "script").map Attribute.kind =
        some AttributeKind.String ∧
      (attributeAt inputTypeAttributes "script").map Attribute.flags =
        some (false, true, true)) ∧
    ((attributeAt inputTypeAttributes "choices").map Attribute.kind =
        some AttributeKind.ListNested ∧
      attributeNames choicesAttributes = ["value"] ∧
      (attributeAt choicesAttributes "value").map Attribute.kind =
        some AttributeKind.String) ∧
    anyRequiredAndComputed ResourceJamfProComputerExtensionAttributes.Schema = false := by
  refine ⟨by decide, by decide, by decide, by decide, by decide, by decide, by decide,
    ⟨by decide, by decide, ⟨_, rfl, by decide, by decide⟩⟩, by decide, by decide, by decide,
    by decide, by decide, by decide⟩

/-- C10 fails on the code: `Create` has an empty body, so for the plan of the spec's
scenario it reports no error and leaves the null state of the fresh response: the
identifier is not populated and the name that was sent is not in the state; a `Read`
after it returns the same null state. -/
theorem C10_Create_leaves_state_empty :
    (∀ req resp, ResourceJamfProComputerExtensionAttributes.Create req resp = resp) ∧
    Diagnostics.HasError (ResourceJamfProComputerExtensionAttributes.Create
      { Plan := batteryHealthPlan } freshCreateResponse).Diagnostics = false ∧
    AttrValues.get (ResourceJamfProComputerExtensionAttributes.Create
      { Plan := batteryHealthPlan } freshCreateResponse).State "id" = AttrValue.null ∧
    AttrValues.get batteryHealthPlan "name" = AttrValue.string "Battery Health" ∧
    AttrValues.get (ResourceJamfProComputerExtensionAttributes.Create
      { Plan := batteryHealthPlan } freshCreateResponse).State "name" = AttrValue.null ∧
    AttrValues.get (ResourceJamfProComputerExtensionAttributes.Read
      { State := (ResourceJamfProComputerExtensionAttributes.Create
          { Plan := batteryHealthPlan } freshCreateResponse).State }
      { State := (ResourceJamfProComputerExtensionAttributes.Create
          { Plan := batteryHealthPlan } freshCreateResponse).State
        Diagnostics := [] }).State "name" = AttrValue.null := by
  refine ⟨fun _ _ => rfl, by decide, by decide, by decide, by decide, by decide⟩

end JamfPro
